import Mathlib

/-!
Shallow embedding of the asynchronous-job lifecycle manager of the
gemini-mcp repository: the video-generation job path
(startVideoGeneration / checkVideoStatus in the Gemini client module),
the deep-research job path (startDeepResearch / checkDeepResearch),
and the two caller-side polling loops (videoCommand / researchCommand).
Remote calls are modelled as oracle inputs (an Except value per call);
file-system writes are recorded in dedicated output fields.
-/

namespace GeminiMcp

/-- Status union shared by VideoGenerationResult and DeepResearchResult. -/
inductive JobStatus
  | pending
  | processing
  | completed
  | failed
  deriving DecidableEq, Repr

/-- Models the JavaScript expression a || b on an optional string field:
an absent or empty (falsy) string falls back to the default. -/
def jsOr (a : Option String) (b : String) : String :=
  match a with
  | some s => if s = "" then b else s
  | none => b

/-- JavaScript truthiness of an optional string field. -/
def jsTruthy (s : Option String) : Bool :=
  match s with
  | some v => v != ""
  | none => false

/-- Opaque operation object returned by genAI.models.generateVideos.
The name field is operation.name; raw stands for the rest of the object,
which the core never inspects. -/
structure StartVideoOp where
  name : Option String
  raw : Nat
  deriving DecidableEq, Repr

/-- Remote status object returned by genAI.operations.getVideosOperation.
done is status.done; error models status.error (some e exactly when the
field is truthy, with e its String() rendering); videoUri models the
chain status.response generatedVideos head video uri. -/
structure RemoteVideoStatus where
  done : Bool
  error : Option String
  videoUri : Option String
  deriving DecidableEq, Repr

/-- Value stored in the activeVideoOperations map: the object from the
start call, replaced by the latest status object on every probe whose
remote call returns. -/
inductive StoredVideoOp
  | initial (op : StartVideoOp)
  | probed (st : RemoteVideoStatus)
  deriving DecidableEq, Repr

/-- The module-level in-memory map activeVideoOperations, modelled per
key (the source uses only get, set and delete on single keys). -/
def VideoRegistry : Type := String → Option StoredVideoOp

/-- Map.set on the registry. -/
def regSet (reg : VideoRegistry) (k : String) (v : StoredVideoOp) : VideoRegistry :=
  fun k' => if k' = k then some v else reg k'

/-- Map.delete on the registry. -/
def regDelete (reg : VideoRegistry) (k : String) : VideoRegistry :=
  fun k' => if k' = k then none else reg k'

/-- The empty registry: the state of a fresh process. -/
def emptyRegistry : VideoRegistry := fun _ => none

/-- Caller-facing result of the video operations. -/
structure VideoGenerationResult where
  operationName : String
  status : JobStatus
  videoUri : Option String := none
  filePath : Option String := none
  error : Option String := none
  deriving DecidableEq, Repr

/-- Outcome of the fetch(videoUri) download step: the response was ok,
the response carried a non-ok HTTP status, or fetch itself threw. -/
inductive FetchOutcome
  | ok
  | notOk (httpStatus : Nat)
  | throws (msg : String)
  deriving DecidableEq, Repr

/-- Oracle inputs consumed by one call to checkVideoStatus: the outcome
of the getVideosOperation remote call, the outcome of the artifact fetch
(consulted only when a download is attempted), and Date.now() for the
file name. -/
structure VideoProbeInput where
  remote : Except String RemoteVideoStatus
  fetch : FetchOutcome
  now : Nat

/-- Result of one checkVideoStatus call: the returned value or the
propagated thrown error, the registry after the call, whether a
fetch/save attempt (artifact materialization) was made, the file path
written when the save succeeded, and the warnings logged. -/
structure VideoProbeOutput where
  result : Except String VideoGenerationResult
  registry : VideoRegistry
  didFetch : Bool
  saved : Option String
  warnings : List String

/-- Error text returned when the operation id is not in the registry. -/
def notFoundMsg : String :=
  "Operation not found. It may have expired or the server was restarted."

/-- The NotFound result shape: a failed-style result carrying the
distinguishing error text. -/
def notFoundResult (operationName : String) : VideoGenerationResult :=
  { operationName := operationName, status := .failed, error := some notFoundMsg }

/-- Local file path used for a downloaded video, mirroring
path.join(outputDir, video-(now).mp4). -/
def videoFilePath (outputDir : String) (now : Nat) : String :=
  outputDir ++ "/video-" ++ toString now ++ ".mp4"

/-- Translation of checkVideoStatus: look the id up in the registry
(absent gives the NotFound result), probe the remote operation (a throw
propagates unchanged with the registry untouched), store the fresh
status object, and when done delete the entry before any artifact
download; a download failure degrades to completed without a file path
plus a warning. -/
def checkVideoStatus (outputDir : String) (reg : VideoRegistry)
    (operationName : String) (inp : VideoProbeInput) : VideoProbeOutput :=
  match reg operationName with
  | none =>
      { result := .ok (notFoundResult operationName), registry := reg,
        didFetch := false, saved := none, warnings := [] }
  | some _ =>
      match inp.remote with
      | .error msg =>
          { result := .error msg, registry := reg,
            didFetch := false, saved := none, warnings := [] }
      | .ok st =>
          let reg1 := regSet reg operationName (.probed st)
          if st.done then
            let reg2 := regDelete reg1 operationName
            match st.error with
            | some e =>
                let r : VideoGenerationResult :=
                  { operationName := operationName, status := .failed,
                    error := some (if e = "" then "Unknown error" else e) }
                { result := .ok r, registry := reg2, didFetch := false,
                  saved := none, warnings := [] }
            | none =>
                match st.videoUri with
                | some uri =>
                    let fp := videoFilePath outputDir inp.now
                    match inp.fetch with
                    | .ok =>
                        let r : VideoGenerationResult :=
                          { operationName := operationName, status := .completed,
                            videoUri := some uri, filePath := some fp }
                        { result := .ok r, registry := reg2, didFetch := true,
                          saved := some fp, warnings := [] }
                    | .notOk code =>
                        let r : VideoGenerationResult :=
                          { operationName := operationName, status := .completed,
                            videoUri := some uri, filePath := none }
                        { result := .ok r, registry := reg2, didFetch := true,
                          saved := none,
                          warnings := ["Failed to download video: " ++ toString code] }
                    | .throws _ =>
                        let r : VideoGenerationResult :=
                          { operationName := operationName, status := .completed,
                            videoUri := some uri, filePath := none }
                        { result := .ok r, registry := reg2, didFetch := true,
                          saved := none, warnings := ["Failed to download video:"] }
                | none =>
                    let r : VideoGenerationResult :=
                      { operationName := operationName, status := .completed }
                    { result := .ok r, registry := reg2, didFetch := false,
                      saved := none, warnings := [] }
          else
            let r : VideoGenerationResult :=
              { operationName := operationName, status := .processing }
            { result := .ok r, registry := reg1, didFetch := false,
              saved := none, warnings := [] }

/-- Translation of startVideoGeneration: the outcome of the remote
generateVideos call is an oracle input; on success the operation object
is stored under operation.name (or a local fallback id built from
Date.now()); on a throw the error propagates unchanged and nothing is
stored. -/
def startVideoGeneration (reg : VideoRegistry)
    (outcome : Except String StartVideoOp) (now : Nat) :
    Except String VideoGenerationResult × VideoRegistry :=
  match outcome with
  | .error msg => (.error msg, reg)
  | .ok op =>
      let operationName := jsOr op.name ("video-" ++ toString now)
      (.ok { operationName := operationName, status := .pending },
       regSet reg operationName (.initial op))

/-- One element of interaction.outputs: the type tag and text field that
the code reads. -/
structure InteractionOutput where
  type : Option String
  text : Option String
  deriving DecidableEq, Repr

/-- Remote interaction object returned by genAI.interactions.get. -/
structure RemoteInteraction where
  status : Option String
  outputs : Option (List InteractionOutput)
  deriving DecidableEq, Repr

/-- Caller-facing result of the deep-research operations. -/
structure DeepResearchResult where
  id : String
  status : JobStatus
  outputs : Option (List (Option String)) := none
  error : Option String := none
  savedPath : Option String := none
  deriving DecidableEq, Repr

/-- Error text for a failed or cancelled research task. -/
def researchFailedMsg : String := "Research task failed or was cancelled"

/-- Path of the saved full research response json. -/
def researchSavePath (outputDir : String) (timestamp : String) : String :=
  outputDir ++ "/deep-research-" ++ timestamp ++ ".json"

/-- Result of one checkDeepResearch call; savedFile records the
materialization (the writeFileSync of the full response json). -/
structure ResearchProbeOutput where
  result : Except String DeepResearchResult
  savedFile : Option String

/-- Translation of checkDeepResearch: stateless against any local
registry; interaction.status (with an absent or empty value read as
unknown) decides the branch; a completed probe always writes the full
response json; a remote throw is rethrown wrapped. -/
def checkDeepResearch (outputDir : String) (researchId : String)
    (remote : Except String RemoteInteraction) (timestamp : String) :
    ResearchProbeOutput :=
  match remote with
  | .error msg =>
      { result := .error ("Failed to check research status: " ++ msg),
        savedFile := none }
  | .ok interaction =>
      let status := jsOr interaction.status "unknown"
      if status = "completed" then
        let outputPath := researchSavePath outputDir timestamp
        let textOutputs :=
          ((interaction.outputs.getD []).filter
            (fun o => o.type == some "text")).map (fun o => o.text)
        let r : DeepResearchResult :=
          { id := researchId, status := .completed,
            outputs := some textOutputs, savedPath := some outputPath }
        { result := .ok r, savedFile := some outputPath }
      else if status = "failed" ∨ status = "cancelled" then
        let r : DeepResearchResult :=
          { id := researchId, status := .failed, error := some researchFailedMsg }
        { result := .ok r, savedFile := none }
      else
        let r : DeepResearchResult :=
          { id := researchId, status := .processing }
        { result := .ok r, savedFile := none }

/-- Object returned by genAI.interactions.create. -/
structure StartedInteraction where
  id : Option String
  deriving DecidableEq, Repr

/-- Translation of startDeepResearch: a throw from the remote create
call is wrapped with a fixed prefix; no local state is created in either
case (the research path keeps no registry). -/
def startDeepResearch (outcome : Except String StartedInteraction)
    (now : Nat) : Except String DeepResearchResult :=
  match outcome with
  | .error msg => .error ("Deep research not available: " ++ msg)
  | .ok interaction =>
      .ok { id := jsOr interaction.id ("research-" ++ toString now),
            status := .pending }

/-- Run a sequence of probes of one id, threading the registry. -/
def runVideoProbes (outputDir : String) (operationName : String) :
    VideoRegistry → List VideoProbeInput → VideoRegistry × List VideoProbeOutput
  | reg, [] => (reg, [])
  | reg, inp :: rest =>
      let out := checkVideoStatus outputDir reg operationName inp
      let next := runVideoProbes outputDir operationName out.registry rest
      (next.1, out :: next.2)

/-- Number of probes in a trace that made a fetch/save attempt. -/
def countFetches (outs : List VideoProbeOutput) : Nat :=
  outs.countP (fun o => o.didFetch)

/-- Run a sequence of research probes of one id (stateless). -/
def runResearchProbes (outputDir researchId : String)
    (probes : List (Except String RemoteInteraction × String)) :
    List ResearchProbeOutput :=
  probes.map (fun p => checkDeepResearch outputDir researchId p.1 p.2)

/-- Number of research probes in a trace that wrote the response json. -/
def countResearchSaves (outs : List ResearchProbeOutput) : Nat :=
  outs.countP (fun o => o.savedFile.isSome)

/-- Terminal outcome of the videoCommand wait loop: printed success with
the saved file, process.exit(1) after a failed result, or the timeout
message after the attempt budget is spent. -/
inductive VideoLoopResult
  | success (filePath : String)
  | failedExit (error : String)
  | timeout
  deriving DecidableEq, Repr

/-- Trace of one videoCommand wait-loop run: the outcome, the number of
probes performed, the synthetic progress values emitted (in order), and
the final registry. -/
structure VideoLoopTrace where
  result : VideoLoopResult
  probes : Nat
  progress : List Nat
  registry : VideoRegistry

/-- Synthetic progress value emitted by videoCommand at a given attempt
count: Math.min(95, attempts * 3). -/
def videoFakeProgress (attempts : Nat) : Nat := min 95 (attempts * 3)

/-- The body of the videoCommand wait loop. Each tick increments the
attempt counter, emits the synthetic progress value, then probes: a
completed result with a truthy filePath stops with success, a failed
result stops with exit(1), anything else (including a thrown probe,
which the catch swallows) continues; exhausting the budget reports the
timeout. The tick oracle is indexed by the attempt counter. -/
def videoPollAux (outputDir operationName : String)
    (ticks : Nat → VideoProbeInput) :
    VideoRegistry → Nat → Nat → VideoLoopTrace
  | reg, _, 0 => { result := .timeout, probes := 0, progress := [], registry := reg }
  | reg, attempts, fuel + 1 =>
      let attempts1 := attempts + 1
      let prog := videoFakeProgress attempts1
      let out := checkVideoStatus outputDir reg operationName (ticks attempts1)
      match out.result with
      | .error _ =>
          let t := videoPollAux outputDir operationName ticks out.registry attempts1 fuel
          { t with probes := t.probes + 1, progress := prog :: t.progress }
      | .ok st =>
          if st.status = .completed ∧ jsTruthy st.filePath then
            { result := .success (st.filePath.getD ""), probes := 1,
              progress := [prog], registry := out.registry }
          else if st.status = .failed then
            { result := .failedExit (jsOr st.error "Unknown error"), probes := 1,
              progress := [prog], registry := out.registry }
          else
            let t := videoPollAux outputDir operationName ticks out.registry attempts1 fuel
            { t with probes := t.probes + 1, progress := prog :: t.progress }

/-- The videoCommand wait loop, started with attempt counter 0 and the
configured attempt budget as fuel. -/
def videoPollLoop (outputDir operationName : String)
    (ticks : Nat → VideoProbeInput) (reg : VideoRegistry)
    (maxAttempts : Nat) : VideoLoopTrace :=
  videoPollAux outputDir operationName ticks reg 0 maxAttempts

/-- Attempt budget hardcoded in videoCommand (10 s times 60). -/
def videoMaxAttempts : Nat := 60

/-- Oracle inputs for one researchCommand tick: the outcome of the
interactions.get call and the timestamp used in the saved file name. -/
structure ResearchTick where
  remote : Except String RemoteInteraction
  timestamp : String

/-- Terminal outcome of the researchCommand wait loop. -/
inductive ResearchLoopResult
  | success (outputs : Option (List (Option String))) (savedPath : Option String)
  | failedExit (error : String)
  | timeout
  deriving DecidableEq, Repr

/-- Trace of one researchCommand wait-loop run. -/
structure ResearchLoopTrace where
  result : ResearchLoopResult
  probes : Nat
  progress : List Nat

/-- Synthetic progress value emitted by researchCommand at a given
attempt count: Math.min(95, attempts * 2). -/
def researchFakeProgress (attempts : Nat) : Nat := min 95 (attempts * 2)

/-- The body of the researchCommand wait loop: a completed result stops
with the outputs and saved path, a failed result stops with exit(1),
anything else (including a thrown probe, which the catch swallows)
continues; exhausting the budget reports the timeout. -/
def researchPollAux (outputDir researchId : String)
    (ticks : Nat → ResearchTick) : Nat → Nat → ResearchLoopTrace
  | _, 0 => { result := .timeout, probes := 0, progress := [] }
  | attempts, fuel + 1 =>
      let attempts1 := attempts + 1
      let prog := researchFakeProgress attempts1
      let out := checkDeepResearch outputDir researchId
        (ticks attempts1).remote (ticks attempts1).timestamp
      match out.result with
      | .error _ =>
          let t := researchPollAux outputDir researchId ticks attempts1 fuel
          { t with probes := t.probes + 1, progress := prog :: t.progress }
      | .ok st =>
          if st.status = .completed then
            { result := .success st.outputs st.savedPath, probes := 1,
              progress := [prog] }
          else if st.status = .failed then
            { result := .failedExit (jsOr st.error "Unknown error"), probes := 1,
              progress := [prog] }
          else
            let t := researchPollAux outputDir researchId ticks attempts1 fuel
            { t with probes := t.probes + 1, progress := prog :: t.progress }

/-- The researchCommand wait loop, started with attempt counter 0. -/
def researchPollLoop (outputDir researchId : String)
    (ticks : Nat → ResearchTick) (maxAttempts : Nat) : ResearchLoopTrace :=
  researchPollAux outputDir researchId ticks 0 maxAttempts

/-- Attempt budget hardcoded in researchCommand (30 s times 180). -/
def researchMaxAttempts : Nat := 180

theorem regSet_same (reg : VideoRegistry) (k : String) (v : StoredVideoOp) :
    regSet reg k v k = some v := by
  simp [regSet]

theorem regDelete_same (reg : VideoRegistry) (k : String) :
    regDelete reg k k = none := by
  simp [regDelete]

theorem checkVideoStatus_absent (od : String) (reg : VideoRegistry) (nm : String)
    (inp : VideoProbeInput) (h : reg nm = none) :
    checkVideoStatus od reg nm inp =
      { result := .ok (notFoundResult nm), registry := reg,
        didFetch := false, saved := none, warnings := [] } := by
  simp [checkVideoStatus, h]

theorem checkVideoStatus_throw (od : String) (reg : VideoRegistry) (nm : String)
    (inp : VideoProbeInput) (op : StoredVideoOp) (msg : String)
    (h : reg nm = some op) (hr : inp.remote = .error msg) :
    checkVideoStatus od reg nm inp =
      { result := .error msg, registry := reg,
        didFetch := false, saved := none, warnings := [] } := by
  simp [checkVideoStatus, h, hr]

theorem checkVideoStatus_processing (od : String) (reg : VideoRegistry) (nm : String)
    (inp : VideoProbeInput) (op : StoredVideoOp) (st : RemoteVideoStatus)
    (h : reg nm = some op) (hr : inp.remote = .ok st) (hd : st.done = false) :
    checkVideoStatus od reg nm inp =
      { result := .ok { operationName := nm, status := .processing },
        registry := regSet reg nm (.probed st),
        didFetch := false, saved := none, warnings := [] } := by
  simp [checkVideoStatus, h, hr, hd]

theorem checkVideoStatus_done_registry (od : String) (reg : VideoRegistry) (nm : String)
    (inp : VideoProbeInput) (op : StoredVideoOp) (st : RemoteVideoStatus)
    (h : reg nm = some op) (hr : inp.remote = .ok st) (hd : st.done = true) :
    (checkVideoStatus od reg nm inp).registry nm = none := by
  cases he : st.error with
  | some e => simp [checkVideoStatus, h, hr, hd, he, regDelete]
  | none =>
    cases hu : st.videoUri with
    | some uri =>
      cases hf : inp.fetch <;>
        simp [checkVideoStatus, h, hr, hd, he, hu, hf, regDelete]
    | none => simp [checkVideoStatus, h, hr, hd, he, hu, regDelete]

theorem checkVideoStatus_fetch_registry (od : String) (reg : VideoRegistry)
    (nm : String) (inp : VideoProbeInput)
    (h : (checkVideoStatus od reg nm inp).didFetch = true) :
    (checkVideoStatus od reg nm inp).registry nm = none := by
  cases hreg : reg nm with
  | none => simp [checkVideoStatus, hreg] at h
  | some op =>
    cases hrem : inp.remote with
    | error msg => simp [checkVideoStatus, hreg, hrem] at h
    | ok st =>
      cases hd : st.done with
      | false => simp [checkVideoStatus, hreg, hrem, hd] at h
      | true =>
        cases he : st.error with
        | some e => simp [checkVideoStatus, hreg, hrem, hd, he] at h
        | none =>
          cases hu : st.videoUri with
          | some uri =>
            cases hf : inp.fetch <;>
              simp [checkVideoStatus, hreg, hrem, hd, he, hu, hf, regDelete]
          | none => simp [checkVideoStatus, hreg, hrem, hd, he, hu] at h

theorem runVideoProbes_absent (od nm : String) (l : List VideoProbeInput) :
    ∀ (reg : VideoRegistry), reg nm = none →
      ∀ o ∈ (runVideoProbes od nm reg l).2,
        o.result = .ok (notFoundResult nm) ∧ o.didFetch = false := by
  induction l with
  | nil => intro reg _ o ho; simp [runVideoProbes] at ho
  | cons inp rest ih =>
    intro reg h o ho
    have habs := checkVideoStatus_absent od reg nm inp h
    simp only [runVideoProbes] at ho
    rcases List.mem_cons.mp ho with rfl | hmem
    · rw [habs]; exact ⟨rfl, rfl⟩
    · have hreg1 : (checkVideoStatus od reg nm inp).registry nm = none := by
        rw [habs]; exact h
      exact ih _ hreg1 o hmem

theorem countFetches_absent (od nm : String) (l : List VideoProbeInput)
    (reg : VideoRegistry) (h : reg nm = none) :
    countFetches (runVideoProbes od nm reg l).2 = 0 := by
  have hall := runVideoProbes_absent od nm l reg h
  simp only [countFetches, List.countP_eq_zero]
  intro o ho
  simpa using (hall o ho).2

theorem countFetches_le_one (od nm : String) (l : List VideoProbeInput) :
    ∀ (reg : VideoRegistry), countFetches (runVideoProbes od nm reg l).2 ≤ 1 := by
  induction l with
  | nil => intro reg; simp [runVideoProbes, countFetches]
  | cons inp rest ih =>
    intro reg
    simp only [runVideoProbes, countFetches, List.countP_cons]
    cases hf : (checkVideoStatus od reg nm inp).didFetch with
    | true =>
      have hnone := checkVideoStatus_fetch_registry od reg nm inp hf
      have h0 := countFetches_absent od nm rest _ hnone
      simp only [countFetches] at h0
      simp [hf, h0]
    | false =>
      have hrest := ih (checkVideoStatus od reg nm inp).registry
      simp only [countFetches] at hrest
      simp [hf]
      omega

theorem checkDeepResearch_throw (od rid msg ts : String) :
    checkDeepResearch od rid (.error msg) ts =
      { result := .error ("Failed to check research status: " ++ msg),
        savedFile := none } := rfl

theorem checkDeepResearch_completed (od rid ts : String) (it : RemoteInteraction)
    (h : jsOr it.status "unknown" = "completed") :
    (checkDeepResearch od rid (.ok it) ts).savedFile =
        some (researchSavePath od ts) ∧
      ∃ r, (checkDeepResearch od rid (.ok it) ts).result = .ok r ∧
        r.status = .completed := by
  refine ⟨by simp [checkDeepResearch, h], ?_⟩
  refine ⟨{ id := rid, status := .completed,
            outputs := some (((it.outputs.getD []).filter
              (fun o => o.type == some "text")).map (fun o => o.text)),
            savedPath := some (researchSavePath od ts) }, ?_, rfl⟩
  simp [checkDeepResearch, h]

theorem checkDeepResearch_other (od rid ts : String) (it : RemoteInteraction)
    (h1 : jsOr it.status "unknown" ≠ "completed")
    (h2 : jsOr it.status "unknown" ≠ "failed")
    (h3 : jsOr it.status "unknown" ≠ "cancelled") :
    checkDeepResearch od rid (.ok it) ts =
      { result := .ok { id := rid, status := .processing }, savedFile := none } := by
  simp [checkDeepResearch, h1, h2, h3]

theorem videoPollAux_nonterminal (od nm : String) (ticks : Nat → VideoProbeInput)
    (H : ∀ k, ∃ st, (ticks k).remote = .ok st ∧ st.done = false) :
    ∀ (fuel attempts : Nat) (reg : VideoRegistry) (op : StoredVideoOp),
      reg nm = some op →
      (videoPollAux od nm ticks reg attempts fuel).result = .timeout ∧
      (videoPollAux od nm ticks reg attempts fuel).probes = fuel ∧
      ∃ v, (videoPollAux od nm ticks reg attempts fuel).registry nm = some v := by
  intro fuel
  induction fuel with
  | zero => intro attempts reg op h; exact ⟨rfl, rfl, op, h⟩
  | succ n ih =>
    intro attempts reg op h
    obtain ⟨st, hrem, hd⟩ := H (attempts + 1)
    have hc := checkVideoStatus_processing od reg nm (ticks (attempts + 1)) op st h hrem hd
    have hnext := ih (attempts + 1) (regSet reg nm (.probed st)) (.probed st)
      (regSet_same reg nm (.probed st))
    simp only [videoPollAux, hc]
    simp only [jsTruthy]
    simpa using hnext

theorem videoPollAux_all_throws (od nm : String) (ticks : Nat → VideoProbeInput)
    (H : ∀ k, ∃ msg, (ticks k).remote = .error msg) :
    ∀ (fuel attempts : Nat) (reg : VideoRegistry) (op : StoredVideoOp),
      reg nm = some op →
      (videoPollAux od nm ticks reg attempts fuel).result = .timeout ∧
      (videoPollAux od nm ticks reg attempts fuel).probes = fuel ∧
      (videoPollAux od nm ticks reg attempts fuel).registry = reg := by
  intro fuel
  induction fuel with
  | zero => intro attempts reg op h; exact ⟨rfl, rfl, rfl⟩
  | succ n ih =>
    intro attempts reg op h
    obtain ⟨msg, hrem⟩ := H (attempts + 1)
    have hc := checkVideoStatus_throw od reg nm (ticks (attempts + 1)) op msg h hrem
    have hnext := ih (attempts + 1) reg op h
    simp only [videoPollAux, hc]
    simpa using hnext

theorem researchPollAux_nonterminal (od rid : String) (ticks : Nat → ResearchTick)
    (H : ∀ k, ∃ it, (ticks k).remote = .ok it ∧
      jsOr it.status "unknown" ≠ "completed" ∧
      jsOr it.status "unknown" ≠ "failed" ∧
      jsOr it.status "unknown" ≠ "cancelled") :
    ∀ (fuel attempts : Nat),
      (researchPollAux od rid ticks attempts fuel).result = .timeout ∧
      (researchPollAux od rid ticks attempts fuel).probes = fuel := by
  intro fuel
  induction fuel with
  | zero => intro attempts; exact ⟨rfl, rfl⟩
  | succ n ih =>
    intro attempts
    obtain ⟨it, hrem, h1, h2, h3⟩ := H (attempts + 1)
    have hc := checkDeepResearch_other od rid (ticks (attempts + 1)).timestamp it h1 h2 h3
    have hnext := ih (attempts + 1)
    simp only [researchPollAux, hrem, hc]
    simpa using hnext

theorem videoFakeProgress_mono (m n : Nat) (h : m ≤ n) :
    videoFakeProgress m ≤ videoFakeProgress n := by
  unfold videoFakeProgress
  exact min_le_min (Nat.le_refl 95) (Nat.mul_le_mul_right 3 h)

theorem videoFakeProgress_lt (n : Nat) : videoFakeProgress n < 100 := by
  have := Nat.min_le_left 95 (n * 3)
  unfold videoFakeProgress
  omega

theorem researchFakeProgress_mono (m n : Nat) (h : m ≤ n) :
    researchFakeProgress m ≤ researchFakeProgress n := by
  unfold researchFakeProgress
  exact min_le_min (Nat.le_refl 95) (Nat.mul_le_mul_right 2 h)

theorem researchFakeProgress_lt (n : Nat) : researchFakeProgress n < 100 := by
  have := Nat.min_le_left 95 (n * 2)
  unfold researchFakeProgress
  omega

theorem videoPollAux_step (od nm : String) (ticks : Nat → VideoProbeInput)
    (reg : VideoRegistry) (attempts n : Nat) :
    ((videoPollAux od nm ticks reg attempts (n + 1)).probes = 1 ∧
     (videoPollAux od nm ticks reg attempts (n + 1)).progress =
       [videoFakeProgress (attempts + 1)]) ∨
    (∃ reg' : VideoRegistry,
      (videoPollAux od nm ticks reg attempts (n + 1)).probes =
        (videoPollAux od nm ticks reg' (attempts + 1) n).probes + 1 ∧
      (videoPollAux od nm ticks reg attempts (n + 1)).progress =
        videoFakeProgress (attempts + 1) ::
          (videoPollAux od nm ticks reg' (attempts + 1) n).progress) := by
  simp only [videoPollAux]
  cases hres : (checkVideoStatus od reg nm (ticks (attempts + 1))).result with
  | error msg => exact Or.inr ⟨_, by trivial, by trivial⟩
  | ok st =>
    by_cases h1 : st.status = .completed ∧ jsTruthy st.filePath = true
    · simp only [h1, if_true]
      exact Or.inl ⟨by trivial, by trivial⟩
    · simp only [h1, if_false]
      by_cases h2 : st.status = .failed
      · simp only [h2, if_true]
        exact Or.inl ⟨by trivial, by trivial⟩
      · simp only [h2, if_false]
        exact Or.inr ⟨_, by trivial, by trivial⟩

theorem videoPollAux_progress_get (od nm : String) (ticks : Nat → VideoProbeInput) :
    ∀ (fuel attempts : Nat) (reg : VideoRegistry) (i : Nat),
      (videoPollAux od nm ticks reg attempts fuel).progress.get? i =
        if i < (videoPollAux od nm ticks reg attempts fuel).probes
        then some (videoFakeProgress (attempts + i + 1)) else none := by
  intro fuel
  induction fuel with
  | zero => intro attempts reg i; simp [videoPollAux]
  | succ n ih =>
    intro attempts reg i
    rcases videoPollAux_step od nm ticks reg attempts n with ⟨hp, hl⟩ | ⟨reg', hp, hl⟩
    · rw [hp, hl]
      cases i with
      | zero => simp
      | succ j => simp
    · rw [hp, hl]
      cases i with
      | zero => simp
      | succ j =>
        rw [List.get?_cons_succ, ih (attempts + 1) reg' j]
        have harg : attempts + 1 + j + 1 = attempts + (j + 1) + 1 := by omega
        rw [harg]
        by_cases hj : j < (videoPollAux od nm ticks reg' (attempts + 1) n).probes
        · simp [hj, Nat.succ_lt_succ hj]
        · have : ¬ j + 1 < (videoPollAux od nm ticks reg' (attempts + 1) n).probes + 1 := by
            omega
          simp [hj, this]

theorem researchPollAux_step (od rid : String) (ticks : Nat → ResearchTick)
    (attempts n : Nat) :
    ((researchPollAux od rid ticks attempts (n + 1)).probes = 1 ∧
     (researchPollAux od rid ticks attempts (n + 1)).progress =
       [researchFakeProgress (attempts + 1)]) ∨
    ((researchPollAux od rid ticks attempts (n + 1)).probes =
       (researchPollAux od rid ticks (attempts + 1) n).probes + 1 ∧
     (researchPollAux od rid ticks attempts (n + 1)).progress =
       researchFakeProgress (attempts + 1) ::
         (researchPollAux od rid ticks (attempts + 1) n).progress) := by
  simp only [researchPollAux]
  cases hres : (checkDeepResearch od rid (ticks (attempts + 1)).remote
      (ticks (attempts + 1)).timestamp).result with
  | error msg => exact Or.inr ⟨by trivial, by trivial⟩
  | ok st =>
    by_cases h1 : st.status = .completed
    · simp only [h1, if_true]
      exact Or.inl ⟨by trivial, by trivial⟩
    · simp only [h1, if_false]
      by_cases h2 : st.status = .failed
      · simp only [h2, if_true]
        exact Or.inl ⟨by trivial, by trivial⟩
      · simp only [h2, if_false]
        exact Or.inr ⟨by trivial, by trivial⟩

theorem researchPollAux_progress_get (od rid : String) (ticks : Nat → ResearchTick) :
    ∀ (fuel attempts : Nat) (i : Nat),
      (researchPollAux od rid ticks attempts fuel).progress.get? i =
        if i < (researchPollAux od rid ticks attempts fuel).probes
        then some (researchFakeProgress (attempts + i + 1)) else none := by
  intro fuel
  induction fuel with
  | zero => intro attempts i; simp [researchPollAux]
  | succ n ih =>
    intro attempts i
    rcases researchPollAux_step od rid ticks attempts n with ⟨hp, hl⟩ | ⟨hp, hl⟩
    · rw [hp, hl]
      cases i with
      | zero => simp
      | succ j => simp
    · rw [hp, hl]
      cases i with
      | zero => simp
      | succ j =>
        rw [List.get?_cons_succ, ih (attempts + 1) j]
        have harg : attempts + 1 + j + 1 = attempts + (j + 1) + 1 := by omega
        rw [harg]
        by_cases hj : j < (researchPollAux od rid ticks (attempts + 1) n).probes
        · simp [hj, Nat.succ_lt_succ hj]
        · have : ¬ j + 1 < (researchPollAux od rid ticks (attempts + 1) n).probes + 1 := by
            omega
          simp [hj, this]

theorem checkVideoStatus_done_terminal (od : String) (reg : VideoRegistry)
    (nm : String) (inp : VideoProbeInput) (op : StoredVideoOp)
    (st : RemoteVideoStatus) (h : reg nm = some op) (hr : inp.remote = .ok st)
    (hd : st.done = true) :
    ∃ r, (checkVideoStatus od reg nm inp).result = .ok r ∧
      (r.status = .completed ∨ r.status = .failed) := by
  cases he : st.error with
  | some e =>
    refine ⟨{ operationName := nm, status := .failed,
              error := some (if e = "" then "Unknown error" else e) },
            ?_, Or.inr rfl⟩
    simp [checkVideoStatus, h, hr, hd, he]
  | none =>
    cases hu : st.videoUri with
    | none =>
      refine ⟨{ operationName := nm, status := .completed }, ?_, Or.inl rfl⟩
      simp [checkVideoStatus, h, hr, hd, he, hu]
    | some uri =>
      cases hf : inp.fetch with
      | ok =>
        refine ⟨{ operationName := nm, status := .completed, videoUri := some uri,
                  filePath := some (videoFilePath od inp.now) }, ?_, Or.inl rfl⟩
        simp [checkVideoStatus, h, hr, hd, he, hu, hf]
      | notOk code =>
        refine ⟨{ operationName := nm, status := .completed, videoUri := some uri,
                  filePath := none }, ?_, Or.inl rfl⟩
        simp [checkVideoStatus, h, hr, hd, he, hu, hf]
      | throws m =>
        refine ⟨{ operationName := nm, status := .completed, videoUri := some uri,
                  filePath := none }, ?_, Or.inl rfl⟩
        simp [checkVideoStatus, h, hr, hd, he, hu, hf]

/-- C1: corrected. For the video job kind the claim holds: across any
sequence of probes of one id, at most one probe performs the fetch/save
materialization, because checkVideoStatus deletes the registry entry
before the hand-off. For the research job kind it fails:
checkDeepResearch keeps no registry and writes the full response json on
every probe that observes remote status completed. -/
theorem claim_C1 :
    (∀ (od nm : String) (reg : VideoRegistry) (l : List VideoProbeInput),
       countFetches (runVideoProbes od nm reg l).2 ≤ 1) ∧
    (∀ (od rid ts : String) (it : RemoteInteraction),
       jsOr it.status "unknown" = "completed" →
       (checkDeepResearch od rid (.ok it) ts).savedFile =
         some (researchSavePath od ts)) := by
  constructor
  · intro od nm reg l
    exact countFetches_le_one od nm l reg
  · intro od rid ts it h
    exact (checkDeepResearch_completed od rid ts it h).1

/-- Witness for C1 at concrete inputs. -/
theorem claim_C1_witness :
    countFetches (runVideoProbes "out" "v1" emptyRegistry []).2 ≤ 1 ∧
    (checkDeepResearch "out" "r1"
        (.ok { status := some "completed", outputs := some [] }) "t1").savedFile =
      some (researchSavePath "out" "t1") :=
  ⟨claim_C1.1 "out" "v1" emptyRegistry [],
   claim_C1.2 "out" "r1" "t1" { status := some "completed", outputs := some [] }
     (by decide)⟩

/-- Counterexample to C1 as stated: two research probes of the same id,
both observing remote status completed, both perform the fetch/save
materialization, so the side effect is not at most once across all
probes of that id. -/
theorem claim_C1_counterexample :
    ¬ countResearchSaves (runResearchProbes "out" "r1"
        [(.ok { status := some "completed", outputs := some [] }, "t1"),
         (.ok { status := some "completed", outputs := some [] }, "t2")]) ≤ 1 := by
  decide

/-- C2: corrected. For the video job kind the claim holds: a probe whose
remote response is done removes the registry entry and returns a
terminal status, and every subsequent probe of the id returns the
NotFound result. For the research job kind it fails: checkDeepResearch
is stateless, so a probe after a terminal completed probe returns
completed again, never NotFound. -/
theorem claim_C2 (od : String) (reg : VideoRegistry) (nm : String)
    (inp : VideoProbeInput) (op : StoredVideoOp) (st : RemoteVideoStatus)
    (hreg : reg nm = some op) (hrem : inp.remote = .ok st)
    (hdone : st.done = true) :
    (∃ r, (checkVideoStatus od reg nm inp).result = .ok r ∧
       (r.status = .completed ∨ r.status = .failed)) ∧
    (checkVideoStatus od reg nm inp).registry nm = none ∧
    (∀ (l : List VideoProbeInput) (o : VideoProbeOutput),
       o ∈ (runVideoProbes od nm (checkVideoStatus od reg nm inp).registry l).2 →
       o.result = .ok (notFoundResult nm)) ∧
    (∀ (rid ts : String) (it : RemoteInteraction),
       jsOr it.status "unknown" = "completed" →
       ∃ r, (checkDeepResearch od rid (.ok it) ts).result = .ok r ∧
         r.status = .completed) := by
  have hnone := checkVideoStatus_done_registry od reg nm inp op st hreg hrem hdone
  refine ⟨checkVideoStatus_done_terminal od reg nm inp op st hreg hrem hdone,
    hnone, ?_, ?_⟩
  · intro l o ho
    exact (runVideoProbes_absent od nm l _ hnone o ho).1
  · intro rid ts it h
    exact (checkDeepResearch_completed od rid ts it h).2

/-- Witness for C2 at concrete inputs: after a done probe the entry is
gone. -/
theorem claim_C2_witness :
    (checkVideoStatus "out"
        (fun k => if k = "v1" then some (.initial { name := some "v1", raw := 0 })
                  else none)
        "v1"
        { remote := .ok { done := true, error := none, videoUri := none },
          fetch := .ok, now := 0 }).registry "v1" = none :=
  (claim_C2 "out"
    (fun k => if k = "v1" then some (.initial { name := some "v1", raw := 0 })
              else none)
    "v1"
    { remote := .ok { done := true, error := none, videoUri := none },
      fetch := .ok, now := 0 }
    (.initial { name := some "v1", raw := 0 })
    { done := true, error := none, videoUri := none }
    (by decide) rfl rfl).2.1

/-- Counterexample to C2 as stated: a research probe observes terminal
completed, and a subsequent probe of the same id returns completed again
(a completed result, not a failed-style NotFound result). -/
theorem claim_C2_counterexample :
    (checkDeepResearch "out" "r1"
        (.ok { status := some "completed", outputs := some [] }) "t1").result =
      .ok { id := "r1", status := .completed, outputs := some [],
            savedPath := some "out/deep-research-t1.json" } ∧
    (checkDeepResearch "out" "r1"
        (.ok { status := some "completed", outputs := some [] }) "t2").result =
      .ok { id := "r1", status := .completed, outputs := some [],
            savedPath := some "out/deep-research-t2.json" } ∧
    JobStatus.completed ≠ JobStatus.failed := by
  exact ⟨rfl, rfl, by decide⟩

/-- C3: corrected. For checkVideoStatus the claim holds: probing an id
absent from the registry returns the NotFound result, never throws, and
leaves the registry unchanged. checkDeepResearch has no registry and
queries the remote service directly, so when that call throws the probe
throws a wrapped error instead of returning a NotFound result. -/
theorem claim_C3 :
    (∀ (od : String) (reg : VideoRegistry) (nm : String) (inp : VideoProbeInput),
       reg nm = none →
       (checkVideoStatus od reg nm inp).result = .ok (notFoundResult nm) ∧
       (checkVideoStatus od reg nm inp).registry = reg) ∧
    (∀ (od rid msg ts : String),
       (checkDeepResearch od rid (.error msg) ts).result =
         .error ("Failed to check research status: " ++ msg)) := by
  constructor
  · intro od reg nm inp h
    rw [checkVideoStatus_absent od reg nm inp h]
    exact ⟨rfl, rfl⟩
  · intro od rid msg ts
    rfl

/-- Witness for C3 at concrete inputs: a probe of an id on the fresh
empty registry returns the NotFound result. -/
theorem claim_C3_witness :
    (checkVideoStatus "out" emptyRegistry "ghost"
        { remote := .error "net", fetch := .ok, now := 0 }).result =
      .ok (notFoundResult "ghost") :=
  (claim_C3.1 "out" emptyRegistry "ghost"
    { remote := .error "net", fetch := .ok, now := 0 } rfl).1

/-- Counterexample to C3 as stated: a research probe of an id never
present in any registry throws (propagates an error outcome) instead of
returning a NotFound result. -/
theorem claim_C3_counterexample :
    (checkDeepResearch "out" "ghost" (.error "network error") "t").result =
      .error "Failed to check research status: network error" := rfl

/-- C4: confirmed. A probe of a registered id whose remote call throws
leaves the whole registry (hence the stored handle) exactly unchanged,
makes no fetch attempt, and propagates the error unchanged; and the
videoCommand polling loop swallows thrown probes, keeps looping, and
counts such ticks toward the same Timeout determination: a run of
all-throwing ticks times out after exactly the configured number of
probes with the registry intact. -/
theorem claim_C4 :
    (∀ (od : String) (reg : VideoRegistry) (nm : String) (inp : VideoProbeInput)
       (op : StoredVideoOp) (msg : String),
       reg nm = some op → inp.remote = .error msg →
       (checkVideoStatus od reg nm inp).result = .error msg ∧
       (checkVideoStatus od reg nm inp).registry = reg ∧
       (checkVideoStatus od reg nm inp).didFetch = false) ∧
    (∀ (od nm : String) (ticks : Nat → VideoProbeInput) (reg : VideoRegistry)
       (maxA : Nat) (op : StoredVideoOp),
       reg nm = some op →
       (∀ k, ∃ msg, (ticks k).remote = .error msg) →
       (videoPollLoop od nm ticks reg maxA).result = .timeout ∧
       (videoPollLoop od nm ticks reg maxA).probes = maxA ∧
       (videoPollLoop od nm ticks reg maxA).registry = reg) := by
  constructor
  · intro od reg nm inp op msg h hr
    rw [checkVideoStatus_throw od reg nm inp op msg h hr]
    exact ⟨rfl, rfl, rfl⟩
  · intro od nm ticks reg maxA op h H
    exact videoPollAux_all_throws od nm ticks H maxA 0 reg op h

/-- Witness for C4 at concrete inputs. -/
theorem claim_C4_witness :
    (checkVideoStatus "out"
        (fun k => if k = "v1" then some (.initial { name := some "v1", raw := 0 })
                  else none)
        "v1" { remote := .error "net", fetch := .ok, now := 0 }).result =
      .error "net" ∧
    (videoPollLoop "out" "v1" (fun _ => { remote := .error "net", fetch := .ok, now := 0 })
        (fun k => if k = "v1" then some (.initial { name := some "v1", raw := 0 })
                  else none) 2).probes = 2 :=
  ⟨(claim_C4.1 "out"
      (fun k => if k = "v1" then some (.initial { name := some "v1", raw := 0 })
                else none)
      "v1" { remote := .error "net", fetch := .ok, now := 0 }
      (.initial { name := some "v1", raw := 0 }) "net" (by decide) rfl).1,
   (claim_C4.2 "out" "v1" (fun _ => { remote := .error "net", fetch := .ok, now := 0 })
      (fun k => if k = "v1" then some (.initial { name := some "v1", raw := 0 })
                else none)
      2 (.initial { name := some "v1", raw := 0 }) (by decide)
      (fun _ => ⟨"net", rfl⟩)).2.1⟩

/-- C5: confirmed. With a registered id and every probe non-terminal,
the videoCommand loop performs exactly the configured maximum number of
probes, reports the timeout outcome (a constructor distinct from the
failed outcome), and the registry entry for the id still exists
afterward; the researchCommand loop likewise performs exactly the
maximum number of probes and reports the timeout outcome (the research
path holds no registry to remove). -/
theorem claim_C5 :
    (∀ (od nm : String) (ticks : Nat → VideoProbeInput) (reg : VideoRegistry)
       (maxA : Nat) (op : StoredVideoOp),
       reg nm = some op →
       (∀ k, ∃ st, (ticks k).remote = .ok st ∧ st.done = false) →
       (videoPollLoop od nm ticks reg maxA).result = .timeout ∧
       (videoPollLoop od nm ticks reg maxA).probes = maxA ∧
       ∃ v, (videoPollLoop od nm ticks reg maxA).registry nm = some v) ∧
    (∀ (od rid : String) (ticks : Nat → ResearchTick) (maxA : Nat),
       (∀ k, ∃ it, (ticks k).remote = .ok it ∧
         jsOr it.status "unknown" ≠ "completed" ∧
         jsOr it.status "unknown" ≠ "failed" ∧
         jsOr it.status "unknown" ≠ "cancelled") →
       (researchPollLoop od rid ticks maxA).result = .timeout ∧
       (researchPollLoop od rid ticks maxA).probes = maxA) ∧
    (∀ e : String, (VideoLoopResult.timeout ≠ VideoLoopResult.failedExit e) ∧
       (ResearchLoopResult.timeout ≠ ResearchLoopResult.failedExit e)) := by
  refine ⟨?_, ?_, ?_⟩
  · intro od nm ticks reg maxA op h H
    exact videoPollAux_nonterminal od nm ticks H maxA 0 reg op h
  · intro od rid ticks maxA H
    exact researchPollAux_nonterminal od rid ticks H maxA 0
  · intro e
    exact ⟨by simp, by simp⟩

/-- Witness for C5 at concrete inputs: three non-terminal ticks, budget
three, gives timeout with three probes and the entry still present. -/
theorem claim_C5_witness :
    (videoPollLoop "out" "v1"
        (fun _ => { remote := .ok { done := false, error := none, videoUri := none },
                    fetch := .ok, now := 0 })
        (fun k => if k = "v1" then some (.initial { name := some "v1", raw := 0 })
                  else none) 3).result = .timeout ∧
    (videoPollLoop "out" "v1"
        (fun _ => { remote := .ok { done := false, error := none, videoUri := none },
                    fetch := .ok, now := 0 })
        (fun k => if k = "v1" then some (.initial { name := some "v1", raw := 0 })
                  else none) 3).probes = 3 ∧
    (researchPollLoop "out" "r1"
        (fun _ => { remote := .ok { status := some "in_progress", outputs := none },
                    timestamp := "t" }) 3).probes = 3 := by
  have hv := claim_C5.1 "out" "v1"
    (fun _ => { remote := .ok { done := false, error := none, videoUri := none },
                fetch := .ok, now := 0 })
    (fun k => if k = "v1" then some (.initial { name := some "v1", raw := 0 })
              else none)
    3 (.initial { name := some "v1", raw := 0 }) (by decide)
    (fun _ => ⟨{ done := false, error := none, videoUri := none }, rfl, rfl⟩)
  have hr := claim_C5.2.1 "out" "r1"
    (fun _ => { remote := .ok { status := some "in_progress", outputs := none },
                timestamp := "t" }) 3
    (fun _ => ⟨{ status := some "in_progress", outputs := none }, rfl,
      by decide, by decide, by decide⟩)
  exact ⟨hv.1, hv.2.1, hr.2⟩

/-- C6: corrected. For both job kinds a throwing remote start call
creates no registry entry (the video registry is returned unchanged and
the research path has no registry at all); the video launcher propagates
exactly the raised error unchanged, but the research launcher rethrows
it wrapped with a fixed prefix, so the caller does not receive the error
unchanged there. -/
theorem claim_C6 :
    (∀ (reg : VideoRegistry) (msg : String) (now : Nat),
       startVideoGeneration reg (.error msg) now = (.error msg, reg)) ∧
    (∀ (msg : String) (now : Nat),
       startDeepResearch (.error msg) now =
         .error ("Deep research not available: " ++ msg)) :=
  ⟨fun _ _ _ => rfl, fun _ _ => rfl⟩

/-- Counterexample to C6 as stated: the research launcher does not hand
the caller the raised error unchanged; it wraps it. -/
theorem claim_C6_counterexample :
    startDeepResearch (.error "boom") 0 =
      .error ("Deep research not available: boom") ∧
    "Deep research not available: boom" ≠ "boom" :=
  ⟨rfl, by decide⟩

/-- C7: confirmed. When a completed video job's artifact fetch throws or
returns a non-ok HTTP response, the probe still reports completed (never
failed), with no file path and no saved file, logging exactly one
warning; the result is distinguishable from completed-with-artifact,
whose file path is present. -/
theorem claim_C7 (od : String) (reg : VideoRegistry) (nm : String)
    (inp : VideoProbeInput) (op : StoredVideoOp) (st : RemoteVideoStatus)
    (uri : String)
    (hreg : reg nm = some op) (hrem : inp.remote = .ok st)
    (hdone : st.done = true) (herr : st.error = none)
    (huri : st.videoUri = some uri) (hfail : inp.fetch ≠ .ok) :
    (checkVideoStatus od reg nm inp).result =
      .ok { operationName := nm, status := .completed, videoUri := some uri,
            filePath := none } ∧
    (checkVideoStatus od reg nm inp).saved = none ∧
    (checkVideoStatus od reg nm inp).warnings.length = 1 ∧
    (checkVideoStatus od reg nm { inp with fetch := .ok }).result =
      .ok { operationName := nm, status := .completed, videoUri := some uri,
            filePath := some (videoFilePath od inp.now) } ∧
    some (videoFilePath od inp.now) ≠ (none : Option String) := by
  cases hf : inp.fetch with
  | ok => exact absurd hf hfail
  | notOk code =>
    refine ⟨?_, ?_, ?_, ?_, by simp⟩
    · simp [checkVideoStatus, hreg, hrem, hdone, herr, huri, hf]
    · simp [checkVideoStatus, hreg, hrem, hdone, herr, huri, hf]
    · simp [checkVideoStatus, hreg, hrem, hdone, herr, huri, hf]
    · simp [checkVideoStatus, hreg, hrem, hdone, herr, huri]
  | throws m =>
    refine ⟨?_, ?_, ?_, ?_, by simp⟩
    · simp [checkVideoStatus, hreg, hrem, hdone, herr, huri, hf]
    · simp [checkVideoStatus, hreg, hrem, hdone, herr, huri, hf]
    · simp [checkVideoStatus, hreg, hrem, hdone, herr, huri, hf]
    · simp [checkVideoStatus, hreg, hrem, hdone, herr, huri]

/-- Witness for C7 at concrete inputs. -/
theorem claim_C7_witness :
    (checkVideoStatus "out"
        (fun k => if k = "v1" then some (.initial { name := some "v1", raw := 0 })
                  else none)
        "v1"
        { remote := .ok { done := true, error := none, videoUri := some "u" },
          fetch := .notOk 403, now := 7 }).result =
      .ok { operationName := "v1", status := .completed, videoUri := some "u",
            filePath := none } :=
  (claim_C7 "out"
    (fun k => if k = "v1" then some (.initial { name := some "v1", raw := 0 })
              else none)
    "v1"
    { remote := .ok { done := true, error := none, videoUri := some "u" },
      fetch := .notOk 403, now := 7 }
    (.initial { name := some "v1", raw := 0 })
    { done := true, error := none, videoUri := some "u" } "u"
    (by decide) rfl rfl rfl rfl (by decide)).1

/-- C8: confirmed. A done response with no error and no video uri yields
status completed with absent videoUri and filePath, no fetch attempt and
no saved file, not failed. -/
theorem claim_C8 (od : String) (reg : VideoRegistry) (nm : String)
    (inp : VideoProbeInput) (op : StoredVideoOp) (st : RemoteVideoStatus)
    (hreg : reg nm = some op) (hrem : inp.remote = .ok st)
    (hdone : st.done = true) (herr : st.error = none)
    (huri : st.videoUri = none) :
    (checkVideoStatus od reg nm inp).result =
      .ok { operationName := nm, status := .completed } ∧
    (checkVideoStatus od reg nm inp).didFetch = false ∧
    (checkVideoStatus od reg nm inp).saved = none := by
  refine ⟨?_, ?_, ?_⟩ <;> simp [checkVideoStatus, hreg, hrem, hdone, herr, huri]

/-- Witness for C8 at concrete inputs. -/
theorem claim_C8_witness :
    (checkVideoStatus "out"
        (fun k => if k = "v1" then some (.initial { name := some "v1", raw := 0 })
                  else none)
        "v1"
        { remote := .ok { done := true, error := none, videoUri := none },
          fetch := .ok, now := 3 }).result =
      .ok { operationName := "v1", status := .completed } :=
  (claim_C8 "out"
    (fun k => if k = "v1" then some (.initial { name := some "v1", raw := 0 })
              else none)
    "v1"
    { remote := .ok { done := true, error := none, videoUri := none },
      fetch := .ok, now := 3 }
    (.initial { name := some "v1", raw := 0 })
    { done := true, error := none, videoUri := none }
    (by decide) rfl rfl rfl rfl).1

/-- C9: confirmed. The emitted synthetic progress value at trace
position i is a function of the attempt count alone (position i is
attempt i+1, whatever the remote responded), the formula is monotone in
the attempt count, and every value is strictly below 100; both for the
video loop formula min 95 (attempts * 3) and the research loop formula
min 95 (attempts * 2). -/
theorem claim_C9 :
    (∀ (od nm : String) (ticks : Nat → VideoProbeInput) (reg : VideoRegistry)
       (maxA i : Nat),
       (videoPollLoop od nm ticks reg maxA).progress.get? i =
         if i < (videoPollLoop od nm ticks reg maxA).probes
         then some (videoFakeProgress (i + 1)) else none) ∧
    (∀ m n, m ≤ n → videoFakeProgress m ≤ videoFakeProgress n) ∧
    (∀ n, videoFakeProgress n < 100) ∧
    (∀ (od rid : String) (ticks : Nat → ResearchTick) (maxA i : Nat),
       (researchPollLoop od rid ticks maxA).progress.get? i =
         if i < (researchPollLoop od rid ticks maxA).probes
         then some (researchFakeProgress (i + 1)) else none) ∧
    (∀ m n, m ≤ n → researchFakeProgress m ≤ researchFakeProgress n) ∧
    (∀ n, researchFakeProgress n < 100) := by
  refine ⟨?_, videoFakeProgress_mono, videoFakeProgress_lt, ?_,
    researchFakeProgress_mono, researchFakeProgress_lt⟩
  · intro od nm ticks reg maxA i
    have h := videoPollAux_progress_get od nm ticks maxA 0 reg i
    simpa [videoPollLoop] using h
  · intro od rid ticks maxA i
    have h := researchPollAux_progress_get od rid ticks maxA 0 i
    simpa [researchPollLoop] using h

/-- Witness for C9 at concrete inputs. -/
theorem claim_C9_witness :
    videoFakeProgress 2 ≤ videoFakeProgress 5 ∧
    researchFakeProgress 1 ≤ researchFakeProgress 3 ∧
    videoFakeProgress 7 < 100 :=
  ⟨claim_C9.2.1 2 5 (by decide), claim_C9.2.2.2.2.1 1 3 (by decide),
   claim_C9.2.2.1 7⟩

theorem checkVideoStatus_not_pending (od : String) (reg : VideoRegistry)
    (nm : String) (inp : VideoProbeInput) (r : VideoGenerationResult)
    (h : (checkVideoStatus od reg nm inp).result = .ok r) :
    r.status = .processing ∨ r.status = .completed ∨ r.status = .failed := by
  cases hreg : reg nm with
  | none =>
    rw [checkVideoStatus_absent od reg nm inp hreg] at h
    simp only [Except.ok.injEq] at h
    subst h
    simp [notFoundResult]
  | some op =>
    cases hrem : inp.remote with
    | error msg =>
      rw [checkVideoStatus_throw od reg nm inp op msg hreg hrem] at h
      simp at h
    | ok st =>
      cases hd : st.done with
      | false =>
        rw [checkVideoStatus_processing od reg nm inp op st hreg hrem hd] at h
        simp only [Except.ok.injEq] at h
        subst h
        simp
      | true =>
        obtain ⟨r2, h2, hor⟩ :=
          checkVideoStatus_done_terminal od reg nm inp op st hreg hrem hd
        rw [h2] at h
        simp only [Except.ok.injEq] at h
        subst h
        exact Or.inr hor

theorem checkDeepResearch_not_pending (od rid ts : String)
    (rem : Except String RemoteInteraction) (r : DeepResearchResult)
    (h : (checkDeepResearch od rid rem ts).result = .ok r) :
    r.status = .processing ∨ r.status = .completed ∨ r.status = .failed := by
  cases rem with
  | error msg => simp [checkDeepResearch] at h
  | ok it =>
    by_cases h1 : jsOr it.status "unknown" = "completed"
    · simp only [checkDeepResearch, h1, if_true] at h
      simp only [Except.ok.injEq] at h
      subst h
      simp
    · by_cases h2 : jsOr it.status "unknown" = "failed"
      · simp [checkDeepResearch, h1, h2] at h
        subst h
        simp
      · by_cases h3 : jsOr it.status "unknown" = "cancelled"
        · simp [checkDeepResearch, h1, h2, h3] at h
          subst h
          simp
        · rw [checkDeepResearch_other od rid ts it h1 h2 h3] at h
          simp only [Except.ok.injEq] at h
          subst h
          simp

/-- C10: confirmed. No probe result ever carries status pending: every
ok result of checkVideoStatus is processing, completed or failed, an
absent id yields the NotFound result (encoded as failed with the
distinguishing text), every ok result of checkDeepResearch is
processing, completed or failed, and any remote research status other
than completed, failed and cancelled (including unknown or missing ones)
maps to processing. -/
theorem claim_C10 :
    (∀ (od : String) (reg : VideoRegistry) (nm : String) (inp : VideoProbeInput)
       (r : VideoGenerationResult),
       (checkVideoStatus od reg nm inp).result = .ok r →
       r.status = .processing ∨ r.status = .completed ∨ r.status = .failed) ∧
    (∀ (od : String) (reg : VideoRegistry) (nm : String) (inp : VideoProbeInput),
       reg nm = none →
       (checkVideoStatus od reg nm inp).result = .ok (notFoundResult nm)) ∧
    (∀ (od rid ts : String) (rem : Except String RemoteInteraction)
       (r : DeepResearchResult),
       (checkDeepResearch od rid rem ts).result = .ok r →
       r.status = .processing ∨ r.status = .completed ∨ r.status = .failed) ∧
    (∀ (od rid ts : String) (it : RemoteInteraction),
       jsOr it.status "unknown" ≠ "completed" →
       jsOr it.status "unknown" ≠ "failed" →
       jsOr it.status "unknown" ≠ "cancelled" →
       (checkDeepResearch od rid (.ok it) ts).result =
         .ok { id := rid, status := .processing }) := by
  refine ⟨checkVideoStatus_not_pending, ?_, checkDeepResearch_not_pending, ?_⟩
  · intro od reg nm inp h
    rw [checkVideoStatus_absent od reg nm inp h]
  · intro od rid ts it h1 h2 h3
    rw [checkDeepResearch_other od rid ts it h1 h2 h3]

/-- Witness for C10 at concrete inputs. -/
theorem claim_C10_witness :
    (checkVideoStatus "out" emptyRegistry "x"
        { remote := .error "e", fetch := .ok, now := 0 }).result =
      .ok (notFoundResult "x") ∧
    ((notFoundResult "x").status = .processing ∨
      (notFoundResult "x").status = .completed ∨
      (notFoundResult "x").status = .failed) ∧
    (checkDeepResearch "out" "r1"
        (.ok { status := some "in_progress", outputs := none }) "t").result =
      .ok { id := "r1", status := .processing } :=
  ⟨claim_C10.2.1 "out" emptyRegistry "x"
     { remote := .error "e", fetch := .ok, now := 0 } rfl,
   claim_C10.1 "out" emptyRegistry "x"
     { remote := .error "e", fetch := .ok, now := 0 } (notFoundResult "x") rfl,
   claim_C10.2.2.2 "out" "r1" "t" { status := some "in_progress", outputs := none }
     (by decide) (by decide) (by decide)⟩

end GeminiMcp
